import Mathlib

/-!
Verification of the Shop marketplace backend: the data model declared under
`backend/apps/*/models.py` and the financial-settlement operations its
specification designs over that model (order aggregate, discount engine,
commission calculator, settlement ledger).

Embedding conventions:
- Django `DecimalField(..., decimal_places=2)` money and rate columns are
  embedded as `Int` minor units (hundredths): `50.00` is `5000`, the rate
  `10.00` (percent) is `1000`.
- `choices` enumerations are kept as the literal `(value, label)` lists of
  the source.
- `unique_together` table constraints become `List.Pairwise` validity
  predicates over the rows of a table.
- Timestamp, free-text and JSON columns that no claim touches are omitted
  from the row structures.
- The source contains only schema declarations; each operation is therefore
  modelled from the specification and is marked `Modelled from the spec:`
  in its doc comment.
-/

namespace ShopRepo

/-- Round `num / den` to the nearest integer, ties going to the even
quotient (round-half-to-even, the banker's rounding of spec §4.4).
Intended for `0 ≤ num` and `0 < den`, where `/` and `%` are Euclidean. -/
def roundHalfEven (num den : Int) : Int :=
  let q := num / den
  let r := num % den
  if 2 * r < den then q
  else if den < 2 * r then q + 1
  else if q % 2 = 0 then q else q + 1

/-- Modelled from the spec: the Commission Calculator (§4.4) is absent from
the source (the source holds only the `Commission` schema). Per the spec's
words, `commission_amount = gross_amount × rate / 100`, rounded to the
currency's minor unit with round-half-to-even, and
`net_amount = gross_amount - commission_amount - platform_fee`.
`gross` and `platform_fee` are minor units and `rate` carries two decimal
places, so the divisor is 100 × 100. Returns (commission_amount, net_amount). -/
def computeCommission (gross rate platform_fee : Int) : Int × Int :=
  let c := roundHalfEven (gross * rate) 10000
  (c, gross - c - platform_fee)

/-- Row of `shops.Shop` (shops/models.py). -/
structure Shop where
  shop_id : Nat
  owner : Nat
  shop_name : String
  shop_slug : String
  status : String
  commission_rate : Int
  minimum_payout_amount : Int
  deriving DecidableEq

/-- The `STATUS_CHOICES` of `shops.Shop`. -/
def Shop.STATUS_CHOICES : List (String × String) :=
  [("pending", "Pending"), ("approved", "Approved"),
   ("suspended", "Suspended"), ("rejected", "Rejected")]

/-- A `Shop` row created without explicit values for the defaulted columns:
`status`, `commission_rate` and `minimum_payout_amount` take the field
defaults declared in the source (`'pending'`, `10.00`, `50.00`). -/
def Shop.create (shop_id owner : Nat) (shop_name shop_slug : String) : Shop :=
  { shop_id := shop_id, owner := owner, shop_name := shop_name,
    shop_slug := shop_slug, status := "pending",
    commission_rate := 1000, minimum_payout_amount := 5000 }

/-- Row of `orders.Order` (orders/models.py). -/
structure Order where
  order_id : Nat
  customer : Nat
  order_number : String
  status : String
  subtotal : Int
  tax_amount : Int
  shipping_amount : Int
  discount_amount : Int
  total_amount : Int
  currency : String
  deriving DecidableEq

/-- The `STATUS_CHOICES` of `orders.Order`. -/
def Order.STATUS_CHOICES : List (String × String) :=
  [("pending", "Pending"), ("processing", "Processing"), ("shipped", "Shipped"),
   ("delivered", "Delivered"), ("cancelled", "Cancelled"),
   ("refunded", "Refunded"), ("failed", "Failed")]

/-- Row of `orders.OrderItem`. `quantity` is a `PositiveIntegerField`,
i.e. a non-negative machine integer, embedded as `Nat`. -/
structure OrderItem where
  item_id : Nat
  order : Nat
  product : Nat
  variant : Nat
  shop : Nat
  quantity : Nat
  unit_price : Int
  total_price : Int
  commission_rate : Int
  commission_amount : Int
  status : String
  deriving DecidableEq

/-- The `STATUS_CHOICES` of `orders.OrderItem`. -/
def OrderItem.STATUS_CHOICES : List (String × String) :=
  [("pending", "Pending"), ("shipped", "Shipped"), ("delivered", "Delivered"),
   ("cancelled", "Cancelled"), ("refunded", "Refunded")]

/-- Row of `orders.OrderAddress`. -/
structure OrderAddress where
  address_id : Nat
  order : Nat
  address_type : String
  address_line1 : String
  city : String
  country : String
  postal_code : String
  deriving DecidableEq

/-- The `ADDRESS_TYPE_CHOICES` of `orders.OrderAddress`. -/
def OrderAddress.ADDRESS_TYPE_CHOICES : List (String × String) :=
  [("billing", "Billing"), ("shipping", "Shipping")]

/-- The `unique_together ('order', 'address_type')` constraint of
`orders.OrderAddress`, as validity of an address table. -/
def orderAddressUnique (t : List OrderAddress) : Prop :=
  t.Pairwise (fun a b => (a.order, a.address_type) ≠ (b.order, b.address_type))

/-- Row of `discounts.Coupon`. Nullable columns are `Option`s. -/
structure Coupon where
  coupon_id : Nat
  shop : Option Nat
  coupon_code : String
  discount_type : String
  discount_value : Int
  minimum_order_amount : Option Int
  maximum_discount_amount : Option Int
  is_active : Bool
  usage_limit : Option Nat
  usage_limit_per_customer : Option Nat
  deriving DecidableEq

/-- Row of `discounts.CouponUsage`. -/
structure CouponUsage where
  usage_id : Nat
  coupon : Nat
  user : Nat
  order : Nat
  discount_amount : Int
  deriving DecidableEq

/-- The `unique_together ('coupon', 'order')` constraint of
`discounts.CouponUsage`, as validity of a usage table. -/
def couponUsageUnique (t : List CouponUsage) : Prop :=
  t.Pairwise (fun a b => (a.coupon, a.order) ≠ (b.coupon, b.order))

/-- Row of `payments.Commission`. -/
structure Commission where
  commission_id : Nat
  order : Nat
  shop : Nat
  item : Nat
  commission_rate : Int
  gross_amount : Int
  commission_amount : Int
  platform_fee : Int
  net_amount : Int
  status : String
  deriving DecidableEq

/-- Row of `payments.Payout`. -/
structure Payout where
  payout_id : Nat
  shop : Nat
  payout_amount : Int
  currency : String
  status : String
  deriving DecidableEq

/-- Row of `payments.PayoutTransaction`. -/
structure PayoutTransaction where
  payout_transaction_id : Nat
  payout : Nat
  commission : Nat
  amount : Int
  deriving DecidableEq

/-- The `unique_together ('payout', 'commission')` constraint of
`payments.PayoutTransaction`, as validity of the join table. -/
def payoutTransactionUnique (t : List PayoutTransaction) : Prop :=
  t.Pairwise (fun a b => (a.payout, a.commission) ≠ (b.payout, b.commission))

/-- The property claim C4 attributes to the constraint: any two records of
the table that reference the same commission belong to the same payout
(so no commission is linked into two different payouts). -/
def commissionInOnePayout (t : List PayoutTransaction) : Prop :=
  ∀ (i j : Nat) (hi : i < t.length) (hj : j < t.length),
    (t.get ⟨i, hi⟩).commission = (t.get ⟨j, hj⟩).commission →
    (t.get ⟨i, hi⟩).payout = (t.get ⟨j, hj⟩).payout

/-- Error taxonomy of spec §7 restricted to the operations modelled here. -/
inductive OrderError where
  | validationError
  | invalidState
  | invalidTransition
  deriving DecidableEq

/-- One line of checkout input to the Order Aggregate's `create` (§4.2):
the referenced variant and selling shop, a requested quantity (raw input,
possibly non-positive) and the unit price; the commission rate to be
snapshotted is resolved by the caller (§4.4 rate resolution). -/
structure CheckoutItem where
  product : Nat
  variant : Nat
  shop : Nat
  quantity : Int
  unit_price : Int
  commission_rate : Int
  deriving DecidableEq

/-- Modelled from the spec: the Order Aggregate `create` (§4.2) is absent
from the source. It validates that every item references an existing,
active product variant, that quantities are positive, and that a shipping
address is present, failing with `ValidationError` otherwise; it computes
`subtotal = Σ (unit_price × quantity)`. Tax and shipping are supplied by
external computation; `discount_amount` starts at the schema default `0`,
`status` at the schema default `'pending'`, and the total obeys the §3
invariant. Item `commission_amount` is computed later, at confirmation
(§4.4); database-assigned ids are left at 0. -/
def createOrder (activeVariants : List Nat) (oid : Nat) (onum : String)
    (customer : Nat) (items : List CheckoutItem) (hasShippingAddress : Bool)
    (tax shipping : Int) (currency : String) :
    Except OrderError (Order × List OrderItem) :=
  if items.all (fun it => decide (1 ≤ it.quantity) && activeVariants.contains it.variant)
      && hasShippingAddress then
    let sub := (items.map (fun it => it.unit_price * it.quantity)).sum
    let rows := items.map (fun it =>
      { item_id := 0, order := oid, product := it.product, variant := it.variant,
        shop := it.shop, quantity := it.quantity.toNat, unit_price := it.unit_price,
        total_price := it.unit_price * it.quantity,
        commission_rate := it.commission_rate, commission_amount := 0,
        status := "pending" : OrderItem })
    Except.ok
      ({ order_id := oid, customer := customer, order_number := onum,
         status := "pending", subtotal := sub, tax_amount := tax,
         shipping_amount := shipping, discount_amount := 0,
         total_amount := sub + tax + shipping, currency := currency : Order },
       rows)
  else Except.error OrderError.validationError

/-- Outcome of the Discount Engine (§4.3): a discount amount, and whether
shipping is zeroed (the `free_shipping` coupon type). -/
structure DiscountDecision where
  amount : Int
  free_shipping : Bool
  deriving DecidableEq

/-- Modelled from the spec: the Discount Engine's discount-type computation
(§4.3) is absent from the source. Percentage coupons discount that
percentage of the subtotal, capped by `maximum_discount_amount` when set;
`fixed_amount` coupons are capped at the subtotal; `free_shipping` zeroes
the shipping amount only. `discount_value` carries two decimal places, so
the percentage divisor is 100 × 100. -/
def couponDecision (c : Coupon) (subtotal : Int) : DiscountDecision :=
  match c.discount_type with
  | "percentage" =>
      let raw := subtotal * c.discount_value / 10000
      match c.maximum_discount_amount with
      | some cap => { amount := min raw cap, free_shipping := false }
      | none => { amount := raw, free_shipping := false }
  | "fixed_amount" =>
      { amount := min c.discount_value subtotal, free_shipping := false }
  | "free_shipping" => { amount := 0, free_shipping := true }
  | _ => { amount := 0, free_shipping := false }

/-- Modelled from the spec: Order Aggregate `applyDiscount` (§4.2) is absent
from the source. It sets `discount_amount` and recomputes the total (a
`free_shipping` decision zeroes `shipping_amount`, §4.3); it must run
before `confirm()` and fails with `InvalidState` on an already-confirmed
order. -/
def applyDiscount (o : Order) (d : DiscountDecision) : Except OrderError Order :=
  if o.status = "pending" then
    let ship := if d.free_shipping then 0 else o.shipping_amount
    Except.ok { o with shipping_amount := ship, discount_amount := d.amount,
                       total_amount := o.subtotal + o.tax_amount + ship - d.amount }
  else Except.error OrderError.invalidState

/-- Settlement-side state: the `Commission` table plus the next
database-assigned id. -/
structure SettlementDb where
  commissions : List Commission
  nextCommissionId : Nat
  deriving DecidableEq

/-- Modelled from the spec: the Commission Calculator run (§4.4) is absent
from the source. At confirmation it creates exactly one `Commission` per
`OrderItem`, snapshotting the item's rate, with the §4.4 arithmetic and the
schema-default status `'pending'`. -/
def createCommissions (platform_fee : Int) (db : SettlementDb) (o : Order)
    (items : List OrderItem) : SettlementDb :=
  items.foldl (fun d it =>
    let cn := computeCommission it.total_price it.commission_rate platform_fee
    { commissions := d.commissions ++
        [{ commission_id := d.nextCommissionId, order := o.order_id,
           shop := it.shop, item := it.item_id,
           commission_rate := it.commission_rate,
           gross_amount := it.total_price, commission_amount := cn.1,
           platform_fee := platform_fee, net_amount := cn.2,
           status := "pending" : Commission }],
      nextCommissionId := d.nextCommissionId + 1 }) db

/-- Modelled from the spec: Order Aggregate `confirm()` (§4.2) is absent
from the source. It transitions `pending → processing` and has the
Commission Calculator create the order's commissions; confirming an
already-confirmed order is a no-op returning the same result, not an
error; any other starting status is an illegal transition. -/
def confirmOrder (platform_fee : Int) (db : SettlementDb) (o : Order)
    (items : List OrderItem) : Except OrderError (SettlementDb × Order) :=
  if o.status = "processing" then Except.ok (db, o)
  else if o.status = "pending" then
    let o' := { o with status := "processing" }
    Except.ok (createCommissions platform_fee db o' items, o')
  else Except.error OrderError.invalidTransition

/-- Discount-side state: the `CouponUsage` table plus the next
database-assigned id. -/
structure DiscountDb where
  usages : List CouponUsage
  nextUsageId : Nat
  deriving DecidableEq

/-- Modelled from the spec: the coupon-application side effect (§4.3) is
absent from the source. Applying a coupon to an order writes a
`CouponUsage` row exactly once per (coupon, order) — enforced by the §3
uniqueness invariant — and discounts the order; a retried application
finds the existing row and is a no-op on both the table and the order. -/
def applyCouponToOrder (db : DiscountDb) (c : Coupon) (userId : Nat)
    (o : Order) : DiscountDb × Order :=
  if db.usages.any (fun u => u.coupon == c.coupon_id && u.order == o.order_id) then
    (db, o)
  else
    let d := couponDecision c o.subtotal
    let ship := if d.free_shipping then 0 else o.shipping_amount
    ({ usages := db.usages ++
         [{ usage_id := db.nextUsageId, coupon := c.coupon_id, user := userId,
            order := o.order_id, discount_amount := d.amount : CouponUsage }],
       nextUsageId := db.nextUsageId + 1 },
     { o with shipping_amount := ship, discount_amount := d.amount,
              total_amount := o.subtotal + o.tax_amount + ship - d.amount })

/-- The tables that deleting a `Shop` row can touch through the foreign
keys declared on them. -/
structure MarketDb where
  shops : List Shop
  orderItems : List OrderItem
  payouts : List Payout
  commissions : List Commission
  deriving DecidableEq

/-- The error Django raises when an `on_delete=RESTRICT` foreign key blocks
a deletion. -/
inductive DeleteError where
  | restrictedError
  deriving DecidableEq

/-- Django delete-collector semantics for the foreign keys referencing
`Shop` declared in the source: `OrderItem.shop` and `Payout.shop` are
`on_delete=RESTRICT`, so a shop referenced by either cannot be deleted and
the delete raises without removing anything; `Commission.shop` is
`on_delete=CASCADE`, so on a successful delete the shop's commissions are
removed with it. Cascaded rows of tables other than `Commission` are not
tracked here, and the further RESTRICT chains (e.g. `OrderItem.product`
through the shop's cascaded products) are omitted — omitting them only
lets more deletions succeed. -/
def deleteShop (db : MarketDb) (sid : Nat) : Except DeleteError MarketDb :=
  if db.orderItems.any (fun it => it.shop == sid)
      || db.payouts.any (fun p => p.shop == sid) then
    Except.error DeleteError.restrictedError
  else
    Except.ok { db with
      shops := db.shops.filter (fun s => s.shop_id != sid),
      commissions := db.commissions.filter (fun c => c.shop != sid) }

/-- Foreign-key and data consistency for commissions: every commission's
order item exists, and the commission's shop is the shop of that item
(§3: one Commission per OrderItem, net amount payable to the selling
shop). -/
def commissionShopWf (db : MarketDb) : Prop :=
  ∀ c ∈ db.commissions, ∃ it ∈ db.orderItems, it.item_id = c.item ∧ it.shop = c.shop

/-- The Order money invariant of §3/§8: the total is the sum of the parts
and is non-negative. -/
def orderTotalInv (o : Order) : Prop :=
  o.total_amount = o.subtotal + o.tax_amount + o.shipping_amount - o.discount_amount ∧
  0 ≤ o.total_amount

/-- The inductive well-formedness the operations maintain on an order's
money columns: all parts non-negative, the discount never exceeding the
subtotal, and the total equal to the sum of the parts. -/
def orderMoneyWf (o : Order) : Prop :=
  0 ≤ o.subtotal ∧ 0 ≤ o.tax_amount ∧ 0 ≤ o.shipping_amount ∧
  0 ≤ o.discount_amount ∧ o.discount_amount ≤ o.subtotal ∧
  o.total_amount = o.subtotal + o.tax_amount + o.shipping_amount - o.discount_amount

/-- Well-formedness of a coupon's discount parameters: a non-negative
value, percentages of at most 100.00, and a non-negative cap when set. -/
def couponWf (c : Coupon) : Prop :=
  0 ≤ c.discount_value ∧
  (c.discount_type = "percentage" → c.discount_value ≤ 10000) ∧
  (∀ cap, c.maximum_discount_amount = some cap → 0 ≤ cap)

/-- A payout-transaction row linking commission 7 into payout 1. -/
def ptxA : PayoutTransaction :=
  { payout_transaction_id := 1, payout := 1, commission := 7, amount := 500 }

/-- A payout-transaction row linking the same commission 7 into payout 2. -/
def ptxB : PayoutTransaction :=
  { payout_transaction_id := 2, payout := 2, commission := 7, amount := 500 }

/-- The order of the spec's §8 concrete scenario: subtotal 100.00, tax 8.00,
shipping 5.00, no discount yet, in its created state. -/
def exOrder : Order :=
  { order_id := 1, customer := 9, order_number := "ord-1", status := "pending",
    subtotal := 10000, tax_amount := 800, shipping_amount := 500,
    discount_amount := 0, total_amount := 11300, currency := "USD" }

/-- The 10-percent coupon of the §8 scenario, capped at 15.00. -/
def exCoupon : Coupon :=
  { coupon_id := 3, shop := none, coupon_code := "SAVE10",
    discount_type := "percentage", discount_value := 1000,
    minimum_order_amount := some 5000, maximum_discount_amount := some 1500,
    is_active := true, usage_limit := none, usage_limit_per_customer := none }

/-- `exOrder` after the §8 scenario discount: discount 10.00, total 103.00. -/
def exDiscountedOrder : Order :=
  { exOrder with discount_amount := 1000, total_amount := 10300 }

/-- A line item of `exOrder` worth 50.00 at rate 10.00. -/
def exItem : OrderItem :=
  { item_id := 11, order := 1, product := 2, variant := 3, shop := 4,
    quantity := 1, unit_price := 5000, total_price := 5000,
    commission_rate := 1000, commission_amount := 0, status := "pending" }

/-- The commission confirmation creates for `exItem` under platform fee
1.00: 10.00 percent of 50.00 is 5.00, net 44.00. -/
def exCommissionRow : Commission :=
  { commission_id := 0, order := 1, shop := 4, item := 11,
    commission_rate := 1000, gross_amount := 5000, commission_amount := 500,
    platform_fee := 100, net_amount := 4400, status := "pending" }

/-- The settlement state after confirming `exOrder` with `exItem`. -/
def exSettledDb : SettlementDb :=
  { commissions := [exCommissionRow], nextCommissionId := 1 }

/-- `exOrder` once confirmed. -/
def exConfirmedOrder : Order :=
  { exOrder with status := "processing" }

/-- An empty coupon-usage table. -/
def exUsageDb : DiscountDb :=
  { usages := [], nextUsageId := 0 }

/-- The usage row written when `exCoupon` is applied to `exOrder`. -/
def exUsageRow : CouponUsage :=
  { usage_id := 0, coupon := 3, user := 9, order := 1, discount_amount := 1000 }

/-- The coupon-usage table after `exCoupon` is applied to `exOrder`. -/
def exUsageDbAfter : DiscountDb :=
  { usages := [exUsageRow], nextUsageId := 1 }

/-- An order item sold by shop 2. -/
def exShopBItem : OrderItem :=
  { item_id := 21, order := 5, product := 2, variant := 3, shop := 2,
    quantity := 1, unit_price := 5000, total_price := 5000,
    commission_rate := 1000, commission_amount := 500, status := "pending" }

/-- A commission earned by shop 2 on `exShopBItem`. -/
def exShopBCommission : Commission :=
  { commission_id := 31, order := 5, shop := 2, item := 21,
    commission_rate := 1000, gross_amount := 5000, commission_amount := 500,
    platform_fee := 100, net_amount := 4400, status := "pending" }

/-- Two shops, one of which (shop 2) has sold an item and earned a
commission; shop 1 has no activity. -/
def exMarketDb : MarketDb :=
  { shops := [Shop.create 1 9 ("alpha") ("alpha"), Shop.create 2 9 ("beta") ("beta")],
    orderItems := [exShopBItem], payouts := [], commissions := [exShopBCommission] }

/-- `exMarketDb` after shop 1 is deleted. -/
def exMarketDbAfter : MarketDb :=
  { shops := [Shop.create 2 9 ("beta") ("beta")],
    orderItems := [exShopBItem], payouts := [], commissions := [exShopBCommission] }

/-- The checkout line that creates `exOrder`: quantity 1 of variant 3 at
100.00 from shop 4. -/
def exCheckout : CheckoutItem :=
  { product := 2, variant := 3, shop := 4, quantity := 1,
    unit_price := 10000, commission_rate := 1000 }

/-- The stored order item `createOrder` produces from `exCheckout`. -/
def exCreatedItem : OrderItem :=
  { item_id := 0, order := 1, product := 2, variant := 3, shop := 4,
    quantity := 1, unit_price := 10000, total_price := 10000,
    commission_rate := 1000, commission_amount := 0, status := "pending" }

/-- A shipping address row for order 1. -/
def exAddrShip : OrderAddress :=
  { address_id := 1, order := 1, address_type := "shipping",
    address_line1 := "1 Main St", city := "Springfield", country := "US",
    postal_code := "11111" }

/-- A billing address row for order 1. -/
def exAddrBill : OrderAddress :=
  { address_id := 2, order := 1, address_type := "billing",
    address_line1 := "1 Main St", city := "Springfield", country := "US",
    postal_code := "11111" }

theorem pairwise_key_distinct {α κ : Type} (key : α → κ) (t : List α)
    (hv : t.Pairwise (fun a b => key a ≠ key b)) :
    ∀ (i j : Nat) (hi : i < t.length) (hj : j < t.length), i ≠ j →
      key t[i] ≠ key t[j] := by
  intro i j hi hj hne
  rw [List.pairwise_iff_getElem] at hv
  rcases Nat.lt_or_ge i j with hlt | hge
  · exact hv i j hi hj hlt
  · exact fun he => hv j i hj hi (lt_of_le_of_ne hge (Ne.symm hne)) he.symm

theorem couponDecision_bounds (c : Coupon) (s : Int) (hs : 0 ≤ s)
    (hc : couponWf c) :
    0 ≤ (couponDecision c s).amount ∧ (couponDecision c s).amount ≤ s := by
  obtain ⟨hv, hperc, hcap⟩ := hc
  unfold couponDecision
  split
  next heq =>
    have hle : c.discount_value ≤ 10000 := hperc heq
    have hraw0 : 0 ≤ s * c.discount_value / 10000 := by positivity
    have hraws : s * c.discount_value / 10000 ≤ s := by
      have h1 : s * c.discount_value ≤ s * 10000 := by nlinarith
      omega
    cases hmax : c.maximum_discount_amount with
    | some cap =>
        have hcap0 : 0 ≤ cap := hcap cap hmax
        simp only [hmax]
        exact ⟨le_min hraw0 hcap0, le_trans (min_le_left _ _) hraws⟩
    | none =>
        simp only [hmax]
        exact ⟨hraw0, hraws⟩
  next heq =>
    exact ⟨le_min hv hs, min_le_right _ _⟩
  next heq =>
    exact ⟨le_refl 0, hs⟩
  next h1 h2 h3 =>
    exact ⟨le_refl 0, hs⟩

/-- C2: for every Commission, `net_amount = gross_amount - commission_amount
- platform_fee`; and at commission_rate 10.00, gross_amount 50.00,
platform_fee 1.00 the calculator yields commission_amount 5.00 and
net_amount 44.00. -/
theorem commission_arithmetic :
    computeCommission 5000 1000 100 = (500, 4400) ∧
    ∀ gross rate fee : Int,
      (computeCommission gross rate fee).2 =
        gross - (computeCommission gross rate fee).1 - fee :=
  ⟨rfl, fun _ _ _ => rfl⟩

/-- C4 counterexample: a `PayoutTransaction` table satisfying the
`unique_together ('payout', 'commission')` constraint in which the same
commission is nevertheless linked into two different payouts — the
constraint does not guarantee the claimed property. -/
theorem commission_in_two_payouts_counterexample :
    payoutTransactionUnique [ptxA, ptxB] ∧ ¬ commissionInOnePayout [ptxA, ptxB] := by
  constructor
  · unfold payoutTransactionUnique
    decide
  · intro hcl
    exact absurd (hcl 0 1 (by decide) (by decide) (by decide)) (by decide)

/-- C4 (amended): the `(payout, commission)` uniqueness of
`PayoutTransaction` guarantees that a commission is linked at most once
into any single payout — two distinct records referencing the same
commission necessarily belong to two different payouts, not the same
one. -/
theorem payout_commission_unique_within_payout (t : List PayoutTransaction)
    (hv : payoutTransactionUnique t) :
    ∀ (i j : Nat) (hi : i < t.length) (hj : j < t.length), i ≠ j →
      t[i].commission = t[j].commission → t[i].payout ≠ t[j].payout := by
  unfold payoutTransactionUnique at hv
  intro i j hi hj hne hcomm hp
  exact pairwise_key_distinct (fun x => (x.payout, x.commission)) t hv i j hi hj hne
    (by rw [Prod.mk.injEq]; exact ⟨hp, hcomm⟩)

theorem payout_commission_unique_witness : ptxA.payout ≠ ptxB.payout :=
  payout_commission_unique_within_payout [ptxA, ptxB]
    (by unfold payoutTransactionUnique; decide) 0 1 (by decide) (by decide)
    (by decide) (by decide)

/-- C9: under the `unique_together ('order', 'address_type')` constraint of
`OrderAddress`, an order has at most one address of each type: two
distinct rows for the same order have different address types. -/
theorem one_address_per_type (t : List OrderAddress)
    (hv : orderAddressUnique t) :
    ∀ (i j : Nat) (hi : i < t.length) (hj : j < t.length), i ≠ j →
      t[i].order = t[j].order → t[i].address_type ≠ t[j].address_type := by
  unfold orderAddressUnique at hv
  intro i j hi hj hne hord hty
  exact pairwise_key_distinct (fun a => (a.order, a.address_type)) t hv i j hi hj hne
    (by rw [Prod.mk.injEq]; exact ⟨hord, hty⟩)

theorem one_address_per_type_witness :
    exAddrShip.address_type ≠ exAddrBill.address_type :=
  one_address_per_type [exAddrShip, exAddrBill]
    (by unfold orderAddressUnique; decide) 0 1 (by decide) (by decide)
    (by decide) (by decide)

/-- C8: every status value an `OrderItem` can take is also a status value
an `Order` can take — `OrderItem.STATUS_CHOICES` values are a subset of
`Order.STATUS_CHOICES` values. -/
theorem item_status_subset_of_order_status :
    ∀ s, s ∈ OrderItem.STATUS_CHOICES.map Prod.fst →
      s ∈ Order.STATUS_CHOICES.map Prod.fst := by
  intro s hs
  fin_cases hs <;> decide

theorem item_status_subset_witness :
    "refunded" ∈ Order.STATUS_CHOICES.map Prod.fst :=
  item_status_subset_of_order_status "refunded" (by decide)

/-- C10: a `Shop` created without explicit values for the defaulted columns
starts with status `'pending'`, commission_rate 10.00 and
minimum_payout_amount 50.00, and that default rate is exactly the 10
percent rate of the spec's commission example (5.00 commission and 44.00
net on 50.00 gross with a 1.00 platform fee). -/
theorem shop_defaults :
    ∀ (sid owner : Nat) (nm slug : String),
      (Shop.create sid owner nm slug).status = "pending" ∧
      (Shop.create sid owner nm slug).commission_rate = 1000 ∧
      (Shop.create sid owner nm slug).minimum_payout_amount = 5000 ∧
      ("pending", "Pending") ∈ Shop.STATUS_CHOICES ∧
      computeCommission 5000 (Shop.create sid owner nm slug).commission_rate 100 =
        (500, 4400) :=
  fun _ _ _ _ => ⟨rfl, rfl, rfl, by decide, rfl⟩

/-- C3: `confirm()` is idempotent — a second confirmation of an
already-confirmed order is a no-op returning the same result, and the
commission table after two confirmations equals the table after one, both
by id list and by count. -/
theorem confirm_idempotent (fee : Int) (db : SettlementDb) (o : Order)
    (items : List OrderItem) (db' : SettlementDb) (o' : Order)
    (h : confirmOrder fee db o items = Except.ok (db', o')) :
    confirmOrder fee db' o' items = Except.ok (db', o') ∧
    ∀ db2 o2, confirmOrder fee db' o' items = Except.ok (db2, o2) →
      db2.commissions.map (fun c => c.commission_id) =
        db'.commissions.map (fun c => c.commission_id) ∧
      db2.commissions.length = db'.commissions.length := by
  have hstat : o'.status = "processing" := by
    unfold confirmOrder at h
    split at h
    next hp =>
      injection h with h2
      injection h2 with hdb ho
      rw [← ho]
      exact hp
    next hp =>
      split at h
      next hq =>
        injection h with h2
        injection h2 with hdb ho
        rw [← ho]
      next hq =>
        exact Except.noConfusion h
  have hsecond : confirmOrder fee db' o' items = Except.ok (db', o') := by
    unfold confirmOrder
    rw [if_pos hstat]
  refine ⟨hsecond, ?_⟩
  intro db2 o2 h2
  rw [hsecond] at h2
  injection h2 with h3
  injection h3 with hdb2 ho2
  rw [← hdb2]
  exact ⟨rfl, rfl⟩

theorem confirm_idempotent_witness :
    confirmOrder 100 exSettledDb exConfirmedOrder [exItem] =
      Except.ok (exSettledDb, exConfirmedOrder) :=
  (confirm_idempotent 100 { commissions := [], nextCommissionId := 0 } exOrder
    [exItem] exSettledDb exConfirmedOrder rfl).1

/-- C6: deleting a `Shop` leaves every existing `Commission` row present
and unchanged. `OrderItem.shop` is `on_delete=RESTRICT`, so a shop whose
items have earned commissions cannot be deleted at all, and a successful
shop deletion therefore never removes a commission — despite the
`on_delete=CASCADE` declared on `Commission.shop` — provided every
commission's shop is the selling shop of its order item. -/
theorem shop_delete_preserves_commissions (db : MarketDb) (sid : Nat)
    (hwf : commissionShopWf db) (db' : MarketDb)
    (h : deleteShop db sid = Except.ok db') :
    db'.commissions = db.commissions := by
  unfold deleteShop at h
  split at h
  next hcond =>
    exact Except.noConfusion h
  next hcond =>
    injection h with h2
    rw [← h2]
    show (db.commissions.filter fun c => c.shop != sid) = db.commissions
    rw [List.filter_eq_self]
    intro c hc
    obtain ⟨it, hit, hitem, hshop⟩ := hwf c hc
    simp only [Bool.or_eq_true, not_or, Bool.not_eq_true, List.any_eq_false] at hcond
    have hne : ¬ it.shop = sid := by
      have := hcond.1 it hit
      simpa using this
    rw [bne_iff_ne]
    rw [← hshop]
    exact hne

theorem shop_delete_witness : exMarketDbAfter.commissions = exMarketDb.commissions :=
  shop_delete_preserves_commissions exMarketDb 1
    (by unfold commissionShopWf; decide) exMarketDbAfter rfl

/-- C7: order creation with any non-positive quantity fails with
`ValidationError`, and every order item a successful creation stores has
quantity at least 1 — in particular, never 0. -/
theorem order_item_quantity_positive :
    (∀ (av : List Nat) (oid : Nat) (onum : String) (cust : Nat)
       (items : List CheckoutItem) (hs : Bool) (tax ship : Int) (cur : String)
       (it : CheckoutItem), it ∈ items → it.quantity ≤ 0 →
       createOrder av oid onum cust items hs tax ship cur =
         Except.error OrderError.validationError) ∧
    (∀ (av : List Nat) (oid : Nat) (onum : String) (cust : Nat)
       (items : List CheckoutItem) (hs : Bool) (tax ship : Int) (cur : String)
       (o : Order) (its : List OrderItem),
       createOrder av oid onum cust items hs tax ship cur = Except.ok (o, its) →
       ∀ x ∈ its, 1 ≤ x.quantity ∧ x.quantity ≠ 0) := by
  constructor
  · intro av oid onum cust items hs tax ship cur it hit hq
    have hallf : items.all
        (fun it => decide (1 ≤ it.quantity) && av.contains it.variant) = false := by
      cases hall : items.all
          (fun it => decide (1 ≤ it.quantity) && av.contains it.variant) with
      | false => rfl
      | true =>
        exfalso
        rw [List.all_eq_true] at hall
        have h1 := hall it hit
        rw [Bool.and_eq_true] at h1
        have h2 := of_decide_eq_true h1.1
        omega
    unfold createOrder
    rw [hallf]
    rfl
  · intro av oid onum cust items hs tax ship cur o its h x hx
    unfold createOrder at h
    split at h
    next hcond =>
      injection h with h2
      injection h2 with ho hits
      rw [← hits] at hx
      obtain ⟨it, hit, rfl⟩ := List.mem_map.mp hx
      rw [Bool.and_eq_true, List.all_eq_true] at hcond
      have h1 := hcond.1 it hit
      rw [Bool.and_eq_true] at h1
      have h2 := of_decide_eq_true h1.1
      constructor
      · show 1 ≤ it.quantity.toNat
        omega
      · show it.quantity.toNat ≠ 0
        omega
    next hcond =>
      exact Except.noConfusion h

theorem order_item_quantity_witness :
    1 ≤ exCreatedItem.quantity ∧ exCreatedItem.quantity ≠ 0 :=
  order_item_quantity_positive.2 [3] 1 ("ord-1") 9 [exCheckout] true 800 500
    ("USD") exOrder [exCreatedItem] rfl exCreatedItem (by decide)

/-- C1: the Order money invariant `total_amount = subtotal + tax_amount +
shipping_amount - discount_amount`, with `total_amount ≥ 0`, holds after
every operation that mutates an order: creation establishes it (together
with the stronger well-formedness the operations maintain), discount
application preserves it for any engine-produced decision on a well-formed
coupon, and confirmation preserves it. -/
theorem order_total_invariant_maintained :
    (∀ (av : List Nat) (oid : Nat) (onum : String) (cust : Nat)
       (items : List CheckoutItem) (hs : Bool) (tax ship : Int) (cur : String)
       (o : Order) (its : List OrderItem),
       0 ≤ tax → 0 ≤ ship → (∀ it ∈ items, 0 ≤ it.unit_price) →
       createOrder av oid onum cust items hs tax ship cur = Except.ok (o, its) →
       orderTotalInv o ∧ orderMoneyWf o) ∧
    (∀ (o : Order) (c : Coupon) (o' : Order), orderMoneyWf o → couponWf c →
       applyDiscount o (couponDecision c o.subtotal) = Except.ok o' →
       orderTotalInv o' ∧ orderMoneyWf o') ∧
    (∀ (fee : Int) (db : SettlementDb) (o : Order) (items : List OrderItem)
       (db' : SettlementDb) (o' : Order), orderTotalInv o →
       confirmOrder fee db o items = Except.ok (db', o') → orderTotalInv o') := by
  refine ⟨?_, ?_, ?_⟩
  · intro av oid onum cust items hs tax ship cur o its htax hship hup h
    unfold createOrder at h
    split at h
    next hcond =>
      injection h with h2
      injection h2 with ho hits
      rw [Bool.and_eq_true, List.all_eq_true] at hcond
      have hsub : 0 ≤ (items.map fun it => it.unit_price * it.quantity).sum := by
        apply List.sum_nonneg
        intro x hx
        obtain ⟨it, hit, rfl⟩ := List.mem_map.mp hx
        have h1 := hcond.1 it hit
        rw [Bool.and_eq_true] at h1
        have h2 := of_decide_eq_true h1.1
        have h3 := hup it hit
        nlinarith
      rw [← ho]
      unfold orderTotalInv orderMoneyWf
      dsimp only
      omega
    next hcond =>
      exact Except.noConfusion h
  · intro o c o' hwf hc h
    obtain ⟨hs0, ht0, hsh0, hd0, hds, htot⟩ := hwf
    obtain ⟨hb1, hb2⟩ := couponDecision_bounds c o.subtotal hs0 hc
    unfold applyDiscount at h
    split at h
    next hp =>
      injection h with h2
      rw [← h2]
      unfold orderTotalInv orderMoneyWf
      dsimp only
      have hsh' : 0 ≤ (if (couponDecision c o.subtotal).free_shipping = true
          then (0 : Int) else o.shipping_amount) := by
        split
        · exact le_refl 0
        · exact hsh0
      omega
    next hp =>
      exact Except.noConfusion h
  · intro fee db o items db' o' hInv h
    unfold confirmOrder at h
    split at h
    next hp =>
      injection h with h2
      injection h2 with hdb ho
      rw [← ho]
      exact hInv
    next hp =>
      split at h
      next hq =>
        injection h with h2
        injection h2 with hdb ho
        rw [← ho]
        exact hInv
      next hq =>
        exact Except.noConfusion h

theorem order_total_invariant_witness :
    orderTotalInv exDiscountedOrder ∧ exDiscountedOrder.total_amount = 10300 :=
  ⟨(order_total_invariant_maintained.2.1 exOrder exCoupon exDiscountedOrder
      (by unfold orderMoneyWf; decide)
      (by
        unfold couponWf
        refine ⟨by decide, fun _ => by decide, ?_⟩
        intro cap hcap
        have h2 : some (1500 : Int) = some cap := hcap
        injection h2 with h3
        omega)
      rfl).1,
   rfl⟩

/-- C5: a coupon applies to an order at most once — the (coupon, order)
uniqueness means a valid usage table has at most one row per coupon and
order, a coupon application preserves that validity, and re-applying the
same coupon to the same order is a no-op: no second `CouponUsage` row and
no second discount of the order's total. -/
theorem coupon_usage_once_per_order :
    (∀ (t : List CouponUsage), couponUsageUnique t →
       ∀ (i j : Nat) (hi : i < t.length) (hj : j < t.length), i ≠ j →
         t[i].coupon = t[j].coupon → t[i].order ≠ t[j].order) ∧
    (∀ (db : DiscountDb) (c : Coupon) (uid : Nat) (o : Order),
       couponUsageUnique db.usages →
       couponUsageUnique (applyCouponToOrder db c uid o).1.usages) ∧
    (∀ (db : DiscountDb) (c : Coupon) (uid : Nat) (o : Order),
       applyCouponToOrder (applyCouponToOrder db c uid o).1 c uid
         (applyCouponToOrder db c uid o).2 = applyCouponToOrder db c uid o) := by
  refine ⟨?_, ?_, ?_⟩
  · intro t hv i j hi hj hne hc ho
    unfold couponUsageUnique at hv
    exact pairwise_key_distinct (fun u => (u.coupon, u.order)) t hv i j hi hj hne
      (by rw [Prod.mk.injEq]; exact ⟨hc, ho⟩)
  · intro db c uid o hun
    unfold applyCouponToOrder
    cases hany : db.usages.any
        (fun u => u.coupon == c.coupon_id && u.order == o.order_id) with
    | true =>
      simp only [if_true]
      exact hun
    | false =>
      simp only [Bool.false_eq_true, if_false]
      unfold couponUsageUnique at hun ⊢
      rw [List.pairwise_append]
      refine ⟨hun, by simp, ?_⟩
      intro a ha b hb
      simp only [List.mem_singleton] at hb
      subst hb
      rw [List.any_eq_false] at hany
      have h1 := hany a ha
      simp only [Bool.and_eq_true, beq_iff_eq, not_and] at h1
      intro heq
      rw [Prod.mk.injEq] at heq
      exact h1 heq.1 heq.2
  · intro db c uid o
    cases hany : db.usages.any
        (fun u => u.coupon == c.coupon_id && u.order == o.order_id) with
    | true =>
      have h1 : applyCouponToOrder db c uid o = (db, o) := by
        unfold applyCouponToOrder
        rw [hany]
        exact rfl
      show applyCouponToOrder (applyCouponToOrder db c uid o).1 c uid
        (applyCouponToOrder db c uid o).2 = applyCouponToOrder db c uid o
      rw [h1]
      exact h1
    | false =>
      simp [applyCouponToOrder, hany, List.any_append]

theorem coupon_usage_once_witness :
    couponUsageUnique (applyCouponToOrder exUsageDb exCoupon 9 exOrder).1.usages ∧
    applyCouponToOrder exUsageDbAfter exCoupon 9 exDiscountedOrder =
      (exUsageDbAfter, exDiscountedOrder) :=
  ⟨coupon_usage_once_per_order.2.1 exUsageDb exCoupon 9 exOrder
     (by unfold couponUsageUnique; decide),
   rfl⟩

end ShopRepo
